import Mathlib

/-!
Shallow embedding of the bonsai-bot control loop (src/main.rs, src/sht20.rs).

The SHT20 driver state is the pair of fields `measurement_type` and
`in_progress` from `struct SHT20`; bus operations are modelled by passing
their outcome explicitly (`Except Nat Nat` stands for
`Result<usize, rppal::i2c::Error>`, the transport error carried as an
opaque code). Floating-point values (`f32`/`f64`) are modelled as `ℚ`:
every constant and every input appearing in the claims is exactly
representable, and the conversion formulas are linear. `DateTime<Utc>` is
modelled as seconds (`Int`); `chrono::Duration::hours h` is `h * 3600`.
-/

namespace Sht20

/-- `enum Measurement` from src/sht20.rs. -/
inductive Measurement where
  | Temperature
  | Humidity
deriving DecidableEq, Repr

/-- `enum ShtError` from src/sht20.rs; the wrapped `rppal::i2c::Error` is an
opaque code. -/
inductive ShtError where
  | MeasInProgress
  | BytesReadMismatch
  | I2c (e : Nat)
deriving DecidableEq, Repr

/-- The driver-owned state of `struct SHT20` (the `i2c` handle itself is a
collaborator; its operations' outcomes are passed in explicitly). -/
structure SHT20 where
  measurement_type : Option Measurement
  in_progress : Bool
deriving DecidableEq, Repr

/-- `TEMP_MEAS_NO_HOLD_MASTER = 0b11110011`. -/
def TEMP_MEAS_NO_HOLD_MASTER : Nat := 0xF3

/-- `RH_MEAS_NO_HOLD_MASTER = 0b11110101`. -/
def RH_MEAS_NO_HOLD_MASTER : Nat := 0xF5

/-- `LSB_STATUS_MASK = 0x03`. -/
def LSB_STATUS_MASK : Nat := 0x03

/-- Outcome of a trigger call: the returned `Result<()>`, the driver state
after the call, and the command bytes actually written to the bus. -/
structure TriggerOutcome where
  result : Except ShtError Unit
  state : SHT20
  busWrites : List Nat
deriving Repr

/-- `SHT20::trigger_temp_measurement`. `writeOutcome` is the result the
`i2c.write(&[TEMP_MEAS_NO_HOLD_MASTER])` call would return; when the guard
rejects the call the write never happens (`busWrites = []`). The source
matches `Ok(_)`, so the reported byte count is ignored. -/
def trigger_temp_measurement (s : SHT20) (writeOutcome : Except Nat Nat) :
    TriggerOutcome :=
  if s.in_progress then ⟨.error .MeasInProgress, s, []⟩
  else
    match writeOutcome with
    | .ok _ => ⟨.ok (), { s with in_progress := true }, [TEMP_MEAS_NO_HOLD_MASTER]⟩
    | .error e => ⟨.error (.I2c e), s, [TEMP_MEAS_NO_HOLD_MASTER]⟩

/-- `SHT20::trigger_humidity_measurement`; identical shape, command byte
`RH_MEAS_NO_HOLD_MASTER`. -/
def trigger_humidity_measurement (s : SHT20) (writeOutcome : Except Nat Nat) :
    TriggerOutcome :=
  if s.in_progress then ⟨.error .MeasInProgress, s, []⟩
  else
    match writeOutcome with
    | .ok _ => ⟨.ok (), { s with in_progress := true }, [RH_MEAS_NO_HOLD_MASTER]⟩
    | .error e => ⟨.error (.I2c e), s, [RH_MEAS_NO_HOLD_MASTER]⟩

/-- `SHT20::convert_humidity`: `-6.0 + 125.0 * raw / 65536.0`. -/
def convert_humidity (raw_humidity : Nat) : ℚ :=
  -6.0 + 125.0 * (raw_humidity : ℚ) / 65536.0

/-- `SHT20::convert_temp`: `-46.85 + 175.72 * raw / 65536.0`. -/
def convert_temp (raw_temp : Nat) : ℚ :=
  -46.85 + 175.72 * (raw_temp : ℚ) / 65536.0

/-- `SHT20::read_measurement`. `readOutcome` stands for the
`i2c.read(&mut raw_bytes)` call: on success the returned byte count and the
two buffer bytes (`u8`, hence the `% 256`). The source pattern
`if let Ok(EXPECTED_BYTES) = ...` matches only a count of exactly 2 — a
transport `Err` or any other count falls to the `else` branch, which clears
`in_progress` and returns `BytesReadMismatch`. `data & !LSB_STATUS_MASK` on
`u16` is `data &&& 0xFFFC`. -/
def read_measurement (s : SHT20) (readOutcome : Except Nat (Nat × Nat × Nat)) :
    Except ShtError ℚ × SHT20 :=
  match readOutcome with
  | .ok (count, b0, b1) =>
    if count = 2 then
      let data : Nat := ((b0 % 256) <<< 8) ||| (b1 % 256)
      if data &&& LSB_STATUS_MASK = 0 then
        (.ok (convert_temp (data &&& 0xFFFC)),
          { measurement_type := some .Temperature, in_progress := false })
      else
        (.ok (convert_humidity (data &&& 0xFFFC)),
          { measurement_type := some .Humidity, in_progress := false })
    else
      (.error .BytesReadMismatch, { s with in_progress := false })
  | .error _ => (.error .BytesReadMismatch, { s with in_progress := false })

end Sht20

namespace Main

open Sht20

/-- `RH_LO_THRESH = 70.0` (percent), from `climate_service`. -/
def RH_LO_THRESH : ℚ := 70.0

/-- `RH_HI_THRESH = 80.0` (percent), from `climate_service`. -/
def RH_HI_THRESH : ℚ := 80.0

/-- `PUMP_PERIODIC_HRS = 24`. -/
def PUMP_PERIODIC_HRS : Int := 24

/-- `PUMP_DURATION_SECS = 60`. -/
def PUMP_DURATION_SECS : Nat := 60

/-- `chrono::Duration::hours`, in seconds. -/
def Duration_hours (h : Int) : Int := h * 3600

/-- The humidifier-line update at the end of `climate_service`, with the two
thresholds as parameters: `if rh < lo { set_high } if rh > hi { set_low }`,
two sequential independent `if`s acting on the line. -/
def hysteresis_update (lo hi rh : ℚ) (line : Bool) : Bool :=
  let line1 := if rh < lo then true else line
  if rh > hi then false else line1

/-- The source's update: `hysteresis_update` at the fixed thresholds
`RH_LO_THRESH`/`RH_HI_THRESH`. -/
def humd_update (rh : ℚ) (line : Bool) : Bool :=
  hysteresis_update RH_LO_THRESH RH_HI_THRESH rh line

/-- Result of one `climate_service` cycle: whether it returned `Ok`, the
`(temperature, humidity)` row inserted into `climate_data` (if the insert
executed), and the humidifier line after the cycle. -/
structure ClimateResult where
  ok : Bool
  persisted : Option (ℚ × ℚ)
  line : Bool
deriving DecidableEq, Repr

/-- `climate_service` from src/main.rs. `tempR`/`rhR` are the outcomes of
the two sensor reads; `prepareOk`/`execOk` those of the two database calls;
`line` is the humidifier line on entry. The source clamps only from above
(`rh = if rh > 100.0 { 100.0 } else { rh }`), then inserts, then runs the
two threshold `if`s; every error path returns before touching the line. -/
def climate_service (tempR rhR : Except ShtError ℚ) (prepareOk execOk : Bool)
    (line : Bool) : ClimateResult :=
  match tempR with
  | .error _ => ⟨false, none, line⟩
  | .ok temp =>
    match rhR with
    | .error _ => ⟨false, none, line⟩
    | .ok rh0 =>
      let rh : ℚ := if rh0 > 100.0 then 100.0 else rh0
      if prepareOk then
        if execOk then ⟨true, some (temp, rh), humd_update rh line⟩
        else ⟨false, none, line⟩
      else ⟨false, none, line⟩

/-- Observable events of the pump path, in program order. -/
inductive PumpEvent where
  | dbPrepare
  | pumpHigh
  | sleep (secs : Nat)
  | pumpLow
  | dbAppendStart (started_at : Int)
deriving DecidableEq, Repr

/-- `run_pump_interval`: `set_high`, sleep, `set_low`. -/
def run_pump_interval (seconds : Nat) : List PumpEvent :=
  [.pumpHigh, .sleep seconds, .pumpLow]

/-- `pump_service` from src/main.rs as its event trace plus success flag.
`now` is `start_time = Utc::now()` captured at entry. The source prepares
the `INSERT`, runs the pulse, and only then executes the insert with the
captured `start_time`; a prepare failure returns before the pulse, an
execute failure returns after it. -/
def pump_service (now : Int) (prepareOk execOk : Bool) :
    List PumpEvent × Bool :=
  if prepareOk then
    if execOk then
      ([PumpEvent.dbPrepare] ++ run_pump_interval PUMP_DURATION_SECS
        ++ [PumpEvent.dbAppendStart now], true)
    else ([PumpEvent.dbPrepare] ++ run_pump_interval PUMP_DURATION_SECS, false)
  else ([PumpEvent.dbPrepare], false)

/-- The `MAX(timestamp)` over the persisted pump-start records: the value of
the one nullable column the aggregate query produces. -/
def most_recent_start (history : List Int) : Option Int := history.max?

/-- The row set `SELECT MAX(timestamp) FROM climate_data WHERE
is_pump_start = TRUE` returns for a given history: an aggregate without
`GROUP BY` always yields exactly one row, whose single column is NULL
(`none`) when no rows match. -/
def pump_history_rows (history : List Int) : List (Option Int) :=
  [most_recent_start history]

/-- What `get_next_pump_schedule` does: returns a schedule time, propagates
the query error through `?`, or panics inside `row.get`. -/
inductive PumpScheduleResult where
  | ok (t : Int)
  | err (e : Nat)
  | rowGetPanic
deriving DecidableEq, Repr

/-- `get_next_pump_schedule` from src/main.rs. `queryResult` is the outcome
of `client.query` (`?` propagates its error); on success it carries the
returned rows, each holding the nullable `MAX(timestamp)` column. The
source does `if let Some(row) = rows.get(0)` and then
`row.get::<_, DateTime<Utc>>(0)`, which panics on a NULL column
(`DateTime<Utc>` does not accept NULL) — `rowGetPanic`. The rows-empty
`else` branch returns `Utc::now() + Duration::hours(PUMP_PERIODIC_HRS)`;
an aggregate query never produces it. -/
def get_next_pump_schedule (queryResult : Except Nat (List (Option Int)))
    (now : Int) : PumpScheduleResult :=
  match queryResult with
  | .error e => .err e
  | .ok rows =>
    match rows with
    | some last_pump_time :: _ =>
      .ok (last_pump_time + Duration_hours PUMP_PERIODIC_HRS)
    | none :: _ => .rowGetPanic
    | [] => .ok (now + Duration_hours PUMP_PERIODIC_HRS)

/-- How `main` consumes `get_next_pump_schedule`. -/
inductive MainOutcome where
  | scheduled (t : Int)
  | panicked
deriving DecidableEq, Repr

/-- The `match` in `main` (src/main.rs lines 60–63): `Ok(t) => t`,
`Err(e) => panic!("No pump scheduled: ...")`. A panic raised inside
`get_next_pump_schedule` by `row.get` unwinds through this match, so it
also ends the process. -/
def main_pump_schedule (queryResult : Except Nat (List (Option Int)))
    (now : Int) : MainOutcome :=
  match get_next_pump_schedule queryResult now with
  | .ok t => .scheduled t
  | .err _ => .panicked
  | .rowGetPanic => .panicked

end Main

open Sht20 Main

/-- C1 counterexample. The claim states that for the empty history the
recovery "returns the documented default of firing immediately
(next_due = now)". On the empty history the aggregate query returns one
row whose column is NULL, `row.get` panics, and with `now = 0` nothing —
in particular not `now` — is returned. -/
theorem C1_empty_history_cex :
    get_next_pump_schedule (.ok (pump_history_rows ([] : List Int))) 0 =
      .rowGetPanic ∧
    get_next_pump_schedule (.ok (pump_history_rows ([] : List Int))) 0 ≠
      .ok 0 := by
  constructor
  · rfl
  · intro h
    cases h

/-- C1 (amended). Schedule recovery: when the most recent pump-start entry
has timestamp `T`, `get_next_pump_schedule` returns exactly `T + 24 hours`;
for the empty history the query yields a single NULL row, `row.get` panics
and startup aborts — the `now + period` fallback written in the `else`
branch is unreachable for this aggregate query. -/
theorem C1_schedule_recovery (history : List Int) (now T : Int) :
    (most_recent_start history = some T →
      get_next_pump_schedule (.ok (pump_history_rows history)) now =
        .ok (T + Duration_hours PUMP_PERIODIC_HRS)) ∧
    (history = [] →
      get_next_pump_schedule (.ok (pump_history_rows history)) now =
        .rowGetPanic) ∧
    (history = [] →
      main_pump_schedule (.ok (pump_history_rows history)) now = .panicked) := by
  refine ⟨fun h => ?_, fun h => ?_, fun h => ?_⟩
  · simp [pump_history_rows, h, get_next_pump_schedule]
  · subst h
    rfl
  · subst h
    rfl

/-- C1 witness: `C1_schedule_recovery` evaluated on the one-entry history
`[100]` and on the empty history, with `now = 7`. -/
theorem C1_schedule_recovery_witness :
    get_next_pump_schedule (.ok (pump_history_rows [100])) 7 =
      .ok (100 + Duration_hours PUMP_PERIODIC_HRS) ∧
    get_next_pump_schedule (.ok (pump_history_rows ([] : List Int))) 7 =
      .rowGetPanic ∧
    main_pump_schedule (.ok (pump_history_rows ([] : List Int))) 7 =
      .panicked :=
  ⟨(C1_schedule_recovery [100] 7 100).1 rfl,
   (C1_schedule_recovery [] 7 0).2.1 rfl,
   (C1_schedule_recovery [] 7 0).2.2 rfl⟩

/-- C2. Mutual exclusion: with a measurement in progress, both triggers
fail with `MeasInProgress`, leave the whole driver state unchanged, and
perform no bus write, whatever the bus would have answered. -/
theorem C2_mutual_exclusion (s : SHT20) (w : Except Nat Nat)
    (h : s.in_progress = true) :
    trigger_temp_measurement s w = ⟨.error .MeasInProgress, s, []⟩ ∧
    trigger_humidity_measurement s w = ⟨.error .MeasInProgress, s, []⟩ := by
  constructor <;> simp [trigger_temp_measurement, trigger_humidity_measurement, h]

/-- C2 witness: `C2_mutual_exclusion` at the concrete busy state
`⟨none, true⟩` and a successful write outcome. -/
theorem C2_mutual_exclusion_witness :
    trigger_temp_measurement ⟨none, true⟩ (.ok 1) =
      ⟨.error .MeasInProgress, ⟨none, true⟩, []⟩ ∧
    trigger_humidity_measurement ⟨none, true⟩ (.ok 1) =
      ⟨.error .MeasInProgress, ⟨none, true⟩, []⟩ :=
  C2_mutual_exclusion ⟨none, true⟩ (.ok 1) rfl

/-- C3. For every driver state and every bus-read outcome, after
`read_measurement` returns — calibrated reading or byte-count error —
the driver is idle: `in_progress = false`. -/
theorem C3_idle_after_read (s : SHT20) (ro : Except Nat (Nat × Nat × Nat)) :
    ((read_measurement s ro).2).in_progress = false := by
  cases ro with
  | error e => rfl
  | ok v =>
    obtain ⟨c, b0, b1⟩ := v
    simp only [read_measurement]
    split
    · split <;> rfl
    · rfl

/-- C4. Hysteresis band: for any thresholds `lo < hi`, a reading strictly
below `lo` drives the line `High` (true), strictly above `hi` drives it
`Low` (false), and inside `[lo, hi]` leaves it unchanged; moreover with the
source's thresholds `lo = 70.0`, `hi = 80.0`, the reading sequence
65.0, 75.0, 85.0, 72.0 drives the line High, unchanged, Low, unchanged
from any initial line state. -/
theorem C4_hysteresis_band (lo hi rh : ℚ) (line l0 : Bool) (hlh : lo < hi) :
    ((rh < lo → hysteresis_update lo hi rh line = true) ∧
     (hi < rh → hysteresis_update lo hi rh line = false) ∧
     (lo ≤ rh → rh ≤ hi → hysteresis_update lo hi rh line = line)) ∧
    (let l1 := (climate_service (.ok 20) (.ok 65) true true l0).line
     let l2 := (climate_service (.ok 20) (.ok 75) true true l1).line
     let l3 := (climate_service (.ok 20) (.ok 85) true true l2).line
     let l4 := (climate_service (.ok 20) (.ok 72) true true l3).line
     l1 = true ∧ l2 = true ∧ l3 = false ∧ l4 = false) := by
  constructor
  · refine ⟨fun h1 => ?_, fun h2 => ?_, fun h3 h4 => ?_⟩
    · simp only [hysteresis_update]
      rw [if_pos h1, if_neg (by linarith)]
    · simp only [hysteresis_update]
      rw [if_pos h2]
    · simp only [hysteresis_update]
      rw [if_neg (by linarith), if_neg (by linarith)]
  · norm_num [climate_service, humd_update, hysteresis_update, RH_LO_THRESH, RH_HI_THRESH]

/-- C4 witness: `C4_hysteresis_band` at `lo = 70`, `hi = 80`, reading 65,
initial line `Low`. -/
theorem C4_hysteresis_band_witness :
    ((65 : ℚ) < 70 → hysteresis_update 70 80 65 false = true) ∧
      ((80 : ℚ) < 65 → hysteresis_update 70 80 65 false = false) ∧
      ((70 : ℚ) ≤ 65 → (65 : ℚ) ≤ 80 → hysteresis_update 70 80 65 false = false) :=
  (C4_hysteresis_band 70 80 65 false false (by norm_num)).1

/-- C5 counterexample. The claim states every humidity reading is clamped
into `[0, 100]` before comparison and persistence. A sensor reading of
`-6.0` (raw humidity 0, reachable from raw sample 1) is persisted as
`-6.0`, which is outside `[0, 100]`: the source clamps only from above. -/
theorem C5_negative_not_clamped_cex :
    (climate_service (.ok 20) (.ok (-6)) true true false).persisted = some (20, -6) ∧
    ¬ ((0 : ℚ) ≤ -6) := by
  constructor
  · norm_num [climate_service]
  · norm_num

/-- C5 (amended). The climate cycle clamps the humidity reading only from
above — values above 100 become 100, values below 0 pass through
unchanged — and that upper-clamped value is what is persisted and what the
humidifier-line decision is made on. -/
theorem C5_upper_clamp_only (temp rh : ℚ) (line : Bool) :
    (climate_service (.ok temp) (.ok rh) true true line).persisted =
      some (temp, if rh > 100.0 then 100.0 else rh) ∧
    (climate_service (.ok temp) (.ok rh) true true line).line =
      humd_update (if rh > 100.0 then 100.0 else rh) line := by
  constructor <;> simp [climate_service]

/-- C6 counterexample. The claim states the pump run "first appends a
pump-start record ... then sets the pump line High". In the actual trace of
a successful run the append (the `INSERT` execute) comes after the whole
pulse: the pump-high event occurs and the append event does not precede
it. -/
theorem C6_append_after_pulse_cex :
    (pump_service 0 true true).1 =
      [.dbPrepare, .pumpHigh, .sleep 60, .pumpLow, .dbAppendStart 0] ∧
    ¬ ((pump_service 0 true true).1.indexOf (PumpEvent.dbAppendStart 0) <
       (pump_service 0 true true).1.indexOf PumpEvent.pumpHigh) := by
  constructor
  · rfl
  · decide

/-- C6 (amended). The pump run captures `started_at = now` at entry,
prepares the insert, sets the pump line High, suspends for the fixed
60-second pulse, sets the line Low, and only then appends the pump-start
record carrying the captured timestamp; when the append execute fails the
pulse has still run but no record is written — so a crash mid-pulse leaves
the period unrecorded. -/
theorem C6_pump_run_order (now : Int) :
    pump_service now true true =
      ([.dbPrepare, .pumpHigh, .sleep PUMP_DURATION_SECS, .pumpLow,
        .dbAppendStart now], true) ∧
    pump_service now true false =
      ([.dbPrepare, .pumpHigh, .sleep PUMP_DURATION_SECS, .pumpLow], false) := by
  constructor <;> rfl

/-- C7 counterexample. The claim states a failed history read at startup is
treated as "no prior entry" and never aborts. On a query error the code
panics (aborts the process); a successful read of a history with an entry
is what proceeds to a schedule. -/
theorem C7_read_failure_panics_cex :
    main_pump_schedule (.error 7) 0 = .panicked ∧
    main_pump_schedule (.ok (pump_history_rows [0])) 0 = .scheduled 86400 := by
  constructor <;> rfl

/-- C7 (amended). A history-read failure propagates out of
`get_next_pump_schedule` via `?`, and `main`'s match on that error panics —
startup aborts rather than falling back to the empty-history default. -/
theorem C7_read_failure_propagates (e : Nat) (now : Int) :
    get_next_pump_schedule (.error e) now = .err e ∧
    main_pump_schedule (.error e) now = .panicked := by
  constructor <;> rfl

/-- C8 counterexample. The claim states a write reporting fewer bytes than
the one expected fails with `BusError`. From idle, a write outcome `Ok(0)`
(zero bytes written) is accepted: the trigger returns `Ok` and transitions
to measuring, because the source matches `Ok(_)` and never inspects the
count. -/
theorem C8_short_write_accepted_cex :
    (trigger_temp_measurement ⟨none, false⟩ (.ok 0)).result = .ok () ∧
    (trigger_temp_measurement ⟨none, false⟩ (.ok 0)).state.in_progress = true := by
  constructor <;> rfl

/-- C8 (amended). From the idle state, a transport error on the command
write makes either trigger fail with the wrapping `I2c` bus error and
leaves the state unchanged; any successful write — regardless of the
reported byte count — transitions the state to measuring. -/
theorem C8_trigger_bus_error (s : SHT20) (e n : Nat) (h : s.in_progress = false) :
    trigger_temp_measurement s (.error e) =
      ⟨.error (.I2c e), s, [TEMP_MEAS_NO_HOLD_MASTER]⟩ ∧
    trigger_humidity_measurement s (.error e) =
      ⟨.error (.I2c e), s, [RH_MEAS_NO_HOLD_MASTER]⟩ ∧
    trigger_temp_measurement s (.ok n) =
      ⟨.ok (), { s with in_progress := true }, [TEMP_MEAS_NO_HOLD_MASTER]⟩ ∧
    trigger_humidity_measurement s (.ok n) =
      ⟨.ok (), { s with in_progress := true }, [RH_MEAS_NO_HOLD_MASTER]⟩ := by
  refine ⟨?_, ?_, ?_, ?_⟩ <;>
    simp [trigger_temp_measurement, trigger_humidity_measurement, h]

/-- C8 witness: `C8_trigger_bus_error` at the idle state with transport
error code 3 and with a zero-byte successful write. -/
theorem C8_trigger_bus_error_witness :
    trigger_temp_measurement ⟨none, false⟩ (.error 3) =
      ⟨.error (.I2c 3), ⟨none, false⟩, [TEMP_MEAS_NO_HOLD_MASTER]⟩ ∧
    trigger_humidity_measurement ⟨none, false⟩ (.error 3) =
      ⟨.error (.I2c 3), ⟨none, false⟩, [RH_MEAS_NO_HOLD_MASTER]⟩ ∧
    trigger_temp_measurement ⟨none, false⟩ (.ok 0) =
      ⟨.ok (), ⟨none, true⟩, [TEMP_MEAS_NO_HOLD_MASTER]⟩ ∧
    trigger_humidity_measurement ⟨none, false⟩ (.ok 0) =
      ⟨.ok (), ⟨none, true⟩, [RH_MEAS_NO_HOLD_MASTER]⟩ :=
  C8_trigger_bus_error ⟨none, false⟩ 3 0 rfl

/-- C9. Conversion correctness: a successful 2-byte read assembles the
big-endian raw value; low bits `00` classify it Temperature and convert the
masked (not shifted) value with `-46.85 + 175.72 * raw / 65536`, any other
low bits classify Humidity and convert with `-6.0 + 125.0 * raw / 65536`;
in particular the raw sample `0b0100000000000010` (bytes `0b01000000`,
`0b00000010`) classifies as Humidity and converts to 25.25. -/
theorem C9_conversion (s : SHT20) (b0 b1 : Nat) :
    (((b0 % 256) <<< 8 ||| (b1 % 256)) &&& LSB_STATUS_MASK = 0 →
      read_measurement s (.ok (2, b0, b1)) =
        (.ok (convert_temp ((((b0 % 256) <<< 8 ||| (b1 % 256))) &&& 65532)),
          ⟨some .Temperature, false⟩)) ∧
    (((b0 % 256) <<< 8 ||| (b1 % 256)) &&& LSB_STATUS_MASK ≠ 0 →
      read_measurement s (.ok (2, b0, b1)) =
        (.ok (convert_humidity ((((b0 % 256) <<< 8 ||| (b1 % 256))) &&& 65532)),
          ⟨some .Humidity, false⟩)) ∧
    read_measurement ⟨none, true⟩ (.ok (2, 64, 2)) =
      (.ok (-6.0 + 125.0 * 16384 / 65536), ⟨some .Humidity, false⟩) ∧
    ((-6.0 + 125.0 * 16384 / 65536 : ℚ) = 25.25) := by
  refine ⟨fun h0 => ?_, fun h1 => ?_, ?_, by norm_num⟩
  · simp only [read_measurement, if_pos rfl, if_pos h0]
    rfl
  · simp only [read_measurement, if_pos rfl, if_neg h1]
    rfl
  · have hc : ¬ (((64 % 256) <<< 8 ||| (2 % 256)) &&& LSB_STATUS_MASK = 0) := by decide
    have hm : (((64 % 256) <<< 8 ||| (2 % 256)) &&& 65532) = 16384 := by decide
    simp only [read_measurement, if_pos rfl, if_neg hc, hm]
    norm_num [convert_humidity]

/-- C9 witness: `C9_conversion` at the example raw sample, bytes 64 and 2,
whose status bits are `10`. -/
theorem C9_conversion_witness :
    read_measurement ⟨none, true⟩ (.ok (2, 64, 2)) =
      (.ok (convert_humidity ((((64 % 256) <<< 8 ||| (2 % 256))) &&& 65532)),
        ⟨some .Humidity, false⟩) :=
  (C9_conversion ⟨none, true⟩ 64 2).2.1 (by decide)

/-- C10. A transport-level failure of the 2-byte read is reported as the
byte-count-mismatch protocol error (`BytesReadMismatch`), not as an `I2c`
bus error wrapping the cause, and still clears the in-progress flag. -/
theorem C10_read_error_is_protocol_error (s : SHT20) (e : Nat) :
    read_measurement s (.error e) =
      (.error .BytesReadMismatch, { s with in_progress := false }) := rfl
